import Mathlib

/-!
Shallow embedding of the WhatsApp automator backend server (Express app:
session state machine, event handlers, HTTP routes, bulk-send drain loop).

The mutable module-level variables `sessionStatus`, `qrCodeData` and `client`
become fields of an explicit state record `St`; each route handler and each
Transport Client event handler becomes a state-transition function.  Ghost
fields `clientsCreated` (how many times `new Client(...)` has been evaluated)
and `destroyed` (ids on which `client.destroy()` was invoked) instrument
client-instance creation and release without changing behaviour.

External asynchronous collaborators are parameters: the outcome of
`qrcode.toDataURL` is an `Except` argument to the qr handler, the outcome of
`client.logout()` is a `Bool` argument to the disconnect route, the outcome of
`client.sendMessage` for the i-th batch item is `sendOk i`, and the value of
`Math.random()` before the i-th inter-item delay is `rnd i`.
-/

namespace WhatsappAutomator

/-- SessionState values taken by the module-level `sessionStatus` variable. -/
inductive SessionState
  | DISCONNECTED
  | CONNECTING
  | CONNECTED
  | ERROR
deriving DecidableEq

/-- Server state: the three module-level mutable variables, plus ghost
instrumentation of Transport Client instance creation and destruction. -/
structure St where
  sessionStatus : SessionState
  qrCodeData : Option String
  client : Option Nat
  clientsCreated : Nat
  destroyed : List Nat
deriving DecidableEq

/-- Module initial state: `sessionStatus = 'DISCONNECTED'`, `qrCodeData = null`,
`client` undefined, no client instance yet constructed. -/
def initialState : St :=
  { sessionStatus := .DISCONNECTED, qrCodeData := none, client := none,
    clientsCreated := 0, destroyed := [] }

/-- First synchronous action of `initializeWhatsApp` past its guard:
`sessionStatus = 'CONNECTING'; // Set status immediately`. -/
def setConnecting (s : St) : St :=
  { s with sessionStatus := .CONNECTING }

/-- The later `client = new Client({...})` assignment: constructs a fresh
Transport Client instance (ghost id = number of instances built so far). -/
def newClient (s : St) : St :=
  { s with client := some s.clientsCreated, clientsCreated := s.clientsCreated + 1 }

/-- The `client.destroy()` call on the currently held handle (no-op when the
`client` variable is unset, mirroring the `if (client)` guards). -/
def destroyClient (s : St) : St :=
  match s.client with
  | some i => { s with destroyed := i :: s.destroyed }
  | none => s

/-- Function `initializeWhatsApp`: returns unchanged when
`sessionStatus === 'CONNECTING' && client` (re-entry guard), otherwise sets
`CONNECTING` immediately and only then constructs the new Client. -/
def initializeWhatsApp (s : St) : St :=
  if s.sessionStatus = .CONNECTING ∧ s.client.isSome then s
  else newClient (setConnecting s)

/-- Handler `client.on('qr', ...)`: the render outcome of
`qrcode.toDataURL(qr, cb)` is the argument; on error `sessionStatus = 'ERROR'`
and return, on success `qrCodeData = url`. -/
def onQr (render : Except Unit String) (s : St) : St :=
  match render with
  | .error _ => { s with sessionStatus := .ERROR }
  | .ok url => { s with qrCodeData := some url }

/-- Handler `client.on('ready', ...)`: `sessionStatus = 'CONNECTED'`,
`qrCodeData = null`. -/
def onReady (s : St) : St :=
  { s with sessionStatus := .CONNECTED, qrCodeData := none }

/-- Handler `client.on('disconnected', ...)`: `sessionStatus = 'DISCONNECTED'`,
`client.destroy()`, `qrCodeData = null`. -/
def onDisconnected (s : St) : St :=
  destroyClient { s with sessionStatus := .DISCONNECTED, qrCodeData := none }

/-- Handler `client.on('auth_failure', ...)`: only `sessionStatus = 'ERROR'`. -/
def onAuthFailure (s : St) : St :=
  { s with sessionStatus := .ERROR }

/-- The `.catch` attached to the asynchronous start of the client:
`sessionStatus = 'ERROR'; if (client) client.destroy()`. -/
def onInitFailure (s : St) : St :=
  destroyClient { s with sessionStatus := .ERROR }

/-- Response body variants of `GET /api/whatsapp/connect`. -/
inductive ConnectBody
  | alreadyConnected
  | initiated
deriving DecidableEq

/-- Route `GET /api/whatsapp/connect`: 200 `Already connected` when
`CONNECTED`; calls `initializeWhatsApp` when `DISCONNECTED` or `ERROR`; always
answers 202 `Connection process initiated.` otherwise. -/
def connectRoute (s : St) : St × Nat × ConnectBody :=
  if s.sessionStatus = .CONNECTED then (s, 200, .alreadyConnected)
  else if s.sessionStatus = .DISCONNECTED ∨ s.sessionStatus = .ERROR then
    (initializeWhatsApp s, 202, .initiated)
  else (s, 202, .initiated)

/-- State component of the connect route. -/
def connectStep (s : St) : St :=
  (connectRoute s).1

/-- Response of `GET /api/whatsapp/status`: `{ status: sessionStatus, qrCode: qrCodeData }`. -/
structure StatusResp where
  status : SessionState
  qrCode : Option String
deriving DecidableEq

/-- Route `GET /api/whatsapp/status`: pure read of the two variables. -/
def statusRoute (s : St) : StatusResp :=
  { status := s.sessionStatus, qrCode := s.qrCodeData }

/-- Result record of `POST /api/whatsapp/disconnect`: the state produced by
the `finally` block, the HTTP answer, and whether `client.logout()` was called
and whether its failure was caught and logged. -/
structure DisconnectResult where
  state : St
  httpStatus : Nat
  success : Bool
  logoutAttempted : Bool
  logoutErrorLogged : Bool
deriving DecidableEq

/-- Route `POST /api/whatsapp/disconnect` (`logoutOk` = whether
`client.logout()` resolves): `try` calls logout only when
`sessionStatus === 'CONNECTED' && client`; `catch` logs a failed logout; the
`finally` block unconditionally sets `sessionStatus = 'DISCONNECTED'`,
`client = null`, `qrCodeData = null` and answers 200 `{ success: true }`. -/
def disconnectRoute (logoutOk : Bool) (s : St) : DisconnectResult :=
  let attempted := s.sessionStatus == .CONNECTED && s.client.isSome
  { state := { s with sessionStatus := .DISCONNECTED, client := none, qrCodeData := none },
    httpStatus := 200, success := true,
    logoutAttempted := attempted,
    logoutErrorLogged := attempted && !logoutOk }

/-- Value found in one field of a request-body item: absent, present but not a
string (so calling a string method on it raises a TypeError), or a string. -/
inductive JsField
  | missing
  | nonString
  | str (s : String)
deriving DecidableEq

/-- One element of the `messages` array of a bulk-send request: `phone`,
`message` (caption) and `imageBase64`, each an arbitrary JSON field. -/
structure SendItem where
  phone : JsField
  message : JsField
  imageBase64 : JsField
deriving DecidableEq

/-- The `item.phone.replace(/\D/g, '')` sanitisation: strip every non-digit. -/
def sanitizePhone (p : String) : String :=
  String.mk (p.toList.filter Char.isDigit)

/-- The chat id built from a string phone field: sanitised digits + `@c.us`. -/
def chatIdOf (p : String) : String :=
  sanitizePhone p ++ "@c.us"

/-- Outcome of one iteration of the drain loop body (all three are reached
with the loop still alive: every raised error is caught by the per-item
`catch`). `sent` records the chat id and the awaited inter-item delay in ms;
`sendFailedLogged` records a rejected `sendMessage` (caught, logged, and —
as written — no delay is awaited); `itemErrorLogged` records an error thrown
before the send completed its setup (e.g. TypeError on `item.phone.replace`
when `phone` is missing or not a string). -/
inductive ItemOutcome
  | sent (chatId : String) (delayMs : ℚ)
  | sendFailedLogged (chatId : String)
  | itemErrorLogged
deriving DecidableEq

/-- Whether the iteration reached the `client.sendMessage` call. -/
def ItemOutcome.sendAttempted : ItemOutcome → Bool
  | .sent _ _ => true
  | .sendFailedLogged _ => true
  | .itemErrorLogged => false

/-- Whether the send resolved successfully. -/
def ItemOutcome.succeeded : ItemOutcome → Bool
  | .sent _ _ => true
  | _ => false

/-- The delay awaited after this iteration, when one was awaited at all. -/
def ItemOutcome.delayMs : ItemOutcome → Option ℚ
  | .sent _ d => some d
  | _ => none

/-- One iteration of the drain loop over `item` (`sendOk` = whether
`client.sendMessage` resolves, `rnd` = the `Math.random()` draw): inside
`try`, build the chat id from `item.phone` (TypeError when not a string, so
the `catch` logs and the iteration ends), build the MessageMedia (its
constructor merely stores the fields), await the send, and only after a
successful send await `Math.random() * 2000 + 1000` ms. -/
def runItem (sendOk : Bool) (rnd : ℚ) (item : SendItem) : ItemOutcome :=
  match item.phone with
  | .str p =>
    if sendOk then .sent (chatIdOf p) (rnd * 2000 + 1000)
    else .sendFailedLogged (chatIdOf p)
  | _ => .itemErrorLogged

/-- The background drain loop `for (const item of messages)`, processing the
items strictly sequentially from index `k`; the loop body never rethrows, so
the loop always reaches the end of the list. -/
def drainLoop (sendOk : Nat → Bool) (rnd : Nat → ℚ) : Nat → List SendItem → List ItemOutcome
  | _, [] => []
  | k, item :: rest => runItem (sendOk k) (rnd k) item :: drainLoop sendOk rnd (k + 1) rest

/-- HTTP answer of `POST /api/whatsapp/send-bulk`. -/
structure BulkResp where
  httpStatus : Nat
  success : Bool
deriving DecidableEq

/-- Route `POST /api/whatsapp/send-bulk`: 400 when `sessionStatus` is not
`'CONNECTED'` (no work), 400 when the `messages` array is absent, otherwise an
immediate 200 acknowledgment and the detached drain loop over the items (the
loop reads `client` but mutates none of the module variables, so the state
component is returned unchanged). `messages = none` stands for a body whose
`messages` field is missing or fails `Array.isArray`. -/
def sendBulkRoute (sendOk : Nat → Bool) (rnd : Nat → ℚ)
    (s : St) (messages : Option (List SendItem)) : St × BulkResp × List ItemOutcome :=
  if s.sessionStatus ≠ .CONNECTED then (s, { httpStatus := 400, success := false }, [])
  else
    match messages with
    | none => (s, { httpStatus := 400, success := false }, [])
    | some msgs => (s, { httpStatus := 200, success := true }, drainLoop sendOk rnd 0 msgs)

/-- Interleaving of route invocations and Transport Client events, one atomic
handler execution per step.  Events are emitted by the currently held client
(hence the `client.isSome` guards), and per the collaborator contract a raw
login token is only emitted during the login phase, while `sessionStatus` is
`'CONNECTING'`. -/
inductive Step : St → St → Prop
  | connect (s : St) : Step s (connectStep s)
  | statusPoll (s : St) : Step s s
  | qrEvent (s : St) (render : Except Unit String)
      (hstat : s.sessionStatus = .CONNECTING) (hc : s.client.isSome) :
      Step s (onQr render s)
  | readyEvent (s : St) (hc : s.client.isSome) : Step s (onReady s)
  | disconnectedEvent (s : St) (hc : s.client.isSome) : Step s (onDisconnected s)
  | authFailureEvent (s : St) (hc : s.client.isSome) : Step s (onAuthFailure s)
  | initFailure (s : St) (hc : s.client.isSome) : Step s (onInitFailure s)
  | disconnectCmd (s : St) (logoutOk : Bool) : Step s (disconnectRoute logoutOk s).state
  | sendBulkCmd (s : St) (sendOk : Nat → Bool) (rnd : Nat → ℚ)
      (messages : Option (List SendItem)) :
      Step s (sendBulkRoute sendOk rnd s messages).1

/-- States reachable from the module initial state. -/
inductive Reach : St → Prop
  | init : Reach initialState
  | step {s t : St} : Reach s → Step s t → Reach t

/-! Helper lemmas shared by the claim theorems. -/

lemma destroyClient_sessionStatus (s : St) :
    (destroyClient s).sessionStatus = s.sessionStatus := by
  cases hc : s.client <;> simp [destroyClient, hc]

lemma destroyClient_qrCodeData (s : St) :
    (destroyClient s).qrCodeData = s.qrCodeData := by
  cases hc : s.client <;> simp [destroyClient, hc]

lemma sendBulkRoute_state (sendOk : Nat → Bool) (rnd : Nat → ℚ)
    (s : St) (messages : Option (List SendItem)) :
    (sendBulkRoute sendOk rnd s messages).1 = s := by
  cases messages <;> (simp only [sendBulkRoute]; split <;> rfl)

lemma connectStep_stable (s : St)
    (h : s.sessionStatus = .CONNECTING ∨ s.sessionStatus = .CONNECTED) :
    connectStep s = s := by
  rcases h with h | h <;> simp [connectStep, connectRoute, h]

lemma onDisconnected_qrCodeData (s : St) : (onDisconnected s).qrCodeData = none := by
  simp [onDisconnected, destroyClient_qrCodeData]

/-- C1: `POST /api/whatsapp/disconnect` — for every prior state and for both
outcomes of `client.logout()` — ends with `sessionStatus = 'DISCONNECTED'`,
`qrCodeData = null`, the `client` handle released (`null`), and answers
HTTP 200 `{ success: true }`; a logout failure is caught (logged only) and the
HTTP answer is identical whether logout succeeded or failed. -/
theorem disconnect_always_resets (logoutOk : Bool) (s : St) :
    (disconnectRoute logoutOk s).state.sessionStatus = .DISCONNECTED
    ∧ (disconnectRoute logoutOk s).state.qrCodeData = none
    ∧ (disconnectRoute logoutOk s).state.client = none
    ∧ (disconnectRoute logoutOk s).httpStatus = 200
    ∧ (disconnectRoute logoutOk s).success = true
    ∧ (disconnectRoute false s).state = (disconnectRoute true s).state
    ∧ (disconnectRoute false s).httpStatus = (disconnectRoute true s).httpStatus
    ∧ (disconnectRoute false s).success = (disconnectRoute true s).success :=
  ⟨rfl, rfl, rfl, rfl, rfl, rfl, rfl, rfl⟩

/-- C6: `POST /api/whatsapp/send-bulk` issued while `sessionStatus` is not
`'CONNECTED'` answers HTTP 400 `{ success: false }`, performs zero send
attempts (empty outcome list), and leaves the state unchanged. -/
theorem sendBulk_requires_connected (sendOk : Nat → Bool) (rnd : Nat → ℚ)
    (s : St) (messages : Option (List SendItem))
    (h : s.sessionStatus ≠ .CONNECTED) :
    sendBulkRoute sendOk rnd s messages
      = (s, { httpStatus := 400, success := false }, []) := by
  simp [sendBulkRoute, h]

/-- C6 witness: a concrete disconnected state with a non-empty batch yields
the 400 answer, the unchanged state and zero attempts. -/
theorem sendBulk_requires_connected_witness :
    sendBulkRoute (fun _ => true) (fun _ => 0) initialState
        (some [{ phone := .str "5551234", message := .str "hi", imageBase64 := .str "AAAA" }])
      = (initialState, { httpStatus := 400, success := false }, []) :=
  sendBulk_requires_connected (fun _ => true) (fun _ => 0) initialState
    (some [{ phone := .str "5551234", message := .str "hi", imageBase64 := .str "AAAA" }])
    (by decide)

/-- C10: the `auth_failure` handler mutates only `sessionStatus` (to
`'ERROR'`): `qrCodeData`, the `client` handle and the ghost instrumentation
are untouched, and a subsequent status poll in the `ERROR` state returns the
previously stored login-token image — concretely, a state holding a rendered
token still serves it after the failure. -/
theorem authFailure_frame (s : St) :
    onAuthFailure s = { s with sessionStatus := .ERROR }
    ∧ (onAuthFailure s).qrCodeData = s.qrCodeData
    ∧ (onAuthFailure s).client = s.client
    ∧ (onAuthFailure s).clientsCreated = s.clientsCreated
    ∧ (onAuthFailure s).destroyed = s.destroyed
    ∧ statusRoute (onAuthFailure s) = { status := .ERROR, qrCode := s.qrCodeData }
    ∧ statusRoute (onAuthFailure
        { sessionStatus := .CONNECTING, qrCodeData := some "data:image/png;base64,tok",
          client := some 0, clientsCreated := 1, destroyed := [] })
      = { status := .ERROR, qrCode := some "data:image/png;base64,tok" } :=
  ⟨rfl, rfl, rfl, rfl, rfl, rfl, rfl⟩

/-- C4: connect calls issued while `sessionStatus` is already `'CONNECTING'`
or `'CONNECTED'` leave the whole state unchanged — any number of repeated
calls constructs no Transport Client instance (`clientsCreated` constant), so
no second live TransportSession can arise from such a sequence. -/
theorem connect_idempotent_while_active (s : St)
    (h : s.sessionStatus = .CONNECTING ∨ s.sessionStatus = .CONNECTED) (n : Nat) :
    connectStep^[n] s = s
    ∧ (connectStep^[n] s).clientsCreated = s.clientsCreated := by
  have hall : connectStep^[n] s = s := by
    induction n with
    | zero => rfl
    | succ n ih => rw [Function.iterate_succ_apply, connectStep_stable s h, ih]
  exact ⟨hall, by rw [hall]⟩

/-- C4 witness: five repeated connect calls on a concrete `CONNECTING` state
with one constructed client leave it untouched. -/
theorem connect_idempotent_while_active_witness :
    connectStep^[5]
        { sessionStatus := .CONNECTING, qrCodeData := none, client := some 0,
          clientsCreated := 1, destroyed := [] }
      = { sessionStatus := .CONNECTING, qrCodeData := none, client := some 0,
          clientsCreated := 1, destroyed := [] } :=
  (connect_idempotent_while_active _ (Or.inl rfl) 5).1

/-- C5: a connect command in state `'DISCONNECTED'` or `'ERROR'` runs
`initializeWhatsApp`, which is exactly `newClient` applied after
`setConnecting` — so the state already reads `'CONNECTING'` at the moment the
Client is constructed — the route leaves the state `'CONNECTING'`, and a
second connect call arriving afterwards constructs no further client. -/
theorem connect_sets_connecting_before_client (s : St)
    (h : s.sessionStatus = .DISCONNECTED ∨ s.sessionStatus = .ERROR) :
    initializeWhatsApp s = newClient (setConnecting s)
    ∧ (setConnecting s).sessionStatus = .CONNECTING
    ∧ (connectStep s).sessionStatus = .CONNECTING
    ∧ (connectStep (connectStep s)).clientsCreated = (connectStep s).clientsCreated := by
  have h1 : initializeWhatsApp s = newClient (setConnecting s) := by
    rcases h with h | h <;> simp [initializeWhatsApp, h]
  have h2 : (connectStep s).sessionStatus = .CONNECTING := by
    rcases h with h | h <;>
      simp [connectStep, connectRoute, initializeWhatsApp, newClient, setConnecting, h]
  refine ⟨h1, rfl, h2, ?_⟩
  rw [connectStep_stable (connectStep s) (Or.inl h2)]

/-- C5 witness: from the initial (disconnected) state, the first connect ends
in `'CONNECTING'` and a second connect call constructs no second client. -/
theorem connect_sets_connecting_before_client_witness :
    (connectStep initialState).sessionStatus = .CONNECTING
    ∧ (connectStep (connectStep initialState)).clientsCreated
        = (connectStep initialState).clientsCreated :=
  ⟨(connect_sets_connecting_before_client initialState (Or.inl rfl)).2.2.1,
   (connect_sets_connecting_before_client initialState (Or.inl rfl)).2.2.2⟩

/-- C8: when the asynchronous start of the client rejects, the `.catch`
handler transitions to `'ERROR'` and releases the handle (`client.destroy()`
is invoked on it); the `ERROR` state is what a subsequent status poll reads;
and the connect caller's answer is the 202 acknowledgment for every
non-connected state, computed independently of the later outcome. -/
theorem initFailure_error_state (s : St) (i : Nat) (hc : s.client = some i) :
    (onInitFailure s).sessionStatus = .ERROR
    ∧ i ∈ (onInitFailure s).destroyed
    ∧ statusRoute (onInitFailure s) = { status := .ERROR, qrCode := s.qrCodeData }
    ∧ ∀ t : St, t.sessionStatus ≠ .CONNECTED → (connectRoute t).2.1 = 202 := by
  refine ⟨by simp [onInitFailure, destroyClient_sessionStatus], ?_, ?_, ?_⟩
  · simp [onInitFailure, destroyClient, hc]
  · simp [statusRoute, onInitFailure, destroyClient_sessionStatus, destroyClient_qrCodeData]
  · intro t ht
    simp only [connectRoute, if_neg ht]
    split <;> rfl

/-- C8 witness: on a concrete connecting state holding client 0, the start
failure leaves `ERROR`, destroys client 0, the poll reads `ERROR`, and the
initial state's connect answer is 202. -/
theorem initFailure_error_state_witness :
    (onInitFailure
        { sessionStatus := .CONNECTING, qrCodeData := none, client := some 0,
          clientsCreated := 1, destroyed := [] }).sessionStatus = .ERROR
    ∧ 0 ∈ (onInitFailure
        { sessionStatus := .CONNECTING, qrCodeData := none, client := some 0,
          clientsCreated := 1, destroyed := [] }).destroyed
    ∧ (connectRoute initialState).2.1 = 202 :=
  ⟨(initFailure_error_state _ 0 rfl).1,
   (initFailure_error_state _ 0 rfl).2.1,
   (initFailure_error_state
      { sessionStatus := .CONNECTING, qrCodeData := none, client := some 0,
        clientsCreated := 1, destroyed := [] } 0 rfl).2.2.2 initialState (by decide)⟩

lemma drainLoop_length (sendOk : Nat → Bool) (rnd : Nat → ℚ) :
    ∀ (k : Nat) (items : List SendItem),
      (drainLoop sendOk rnd k items).length = items.length
  | _, [] => rfl
  | k, item :: rest => by
      simp [drainLoop, drainLoop_length sendOk rnd (k + 1) rest]

lemma drainLoop_getElem (sendOk : Nat → Bool) (rnd : Nat → ℚ) :
    ∀ (k i : Nat) (items : List SendItem),
      (drainLoop sendOk rnd k items)[i]?
        = (items[i]?).map (runItem (sendOk (k + i)) (rnd (k + i)))
  | _, _, [] => by simp [drainLoop]
  | k, 0, item :: rest => by simp [drainLoop]
  | k, i + 1, item :: rest => by
      have h : k + 1 + i = k + (i + 1) := by omega
      simp only [drainLoop, List.getElem?_cons_succ]
      rw [drainLoop_getElem sendOk rnd (k + 1) i rest, h]

/-- C2: the drain loop processes every item of every batch (one outcome per
item, in order), the outcome of item `i` is a function of item `i` and its
own send result alone (so no per-item failure aborts the batch), and in the
concrete 3-item batch whose second send rejects, the third send is still
attempted and succeeds. -/
theorem drainLoop_failure_isolated (sendOk : Nat → Bool) (rnd : Nat → ℚ)
    (items : List SendItem) (i : Nat) :
    (drainLoop sendOk rnd 0 items).length = items.length
    ∧ (drainLoop sendOk rnd 0 items)[i]? = (items[i]?).map (runItem (sendOk i) (rnd i))
    ∧ drainLoop (fun j => j != 1) (fun _ => 0) 0
        [{ phone := .str "111", message := .str "m1", imageBase64 := .str "AA" },
         { phone := .str "222", message := .str "m2", imageBase64 := .str "BB" },
         { phone := .str "333", message := .str "m3", imageBase64 := .str "CC" }]
      = [.sent "111@c.us" 1000, .sendFailedLogged "222@c.us", .sent "333@c.us" 1000] := by
  refine ⟨drainLoop_length sendOk rnd 0 items, ?_, ?_⟩
  · simpa using drainLoop_getElem sendOk rnd 0 i items
  · simp only [drainLoop, runItem]
    norm_num [chatIdOf, sanitizePhone]
    all_goals decide

/-- C3 counterexample: it is false that every attempted item — success or
failure — is followed by a pause of at least 1000 ms: in a concrete 2-item
batch whose first send rejects, the first iteration awaits no delay at all
before the loop processes the second item. -/
theorem drainLoop_no_delay_after_failure :
    ¬ (∀ (sendOk : Nat → Bool) (rnd : Nat → ℚ) (items : List SendItem)
        (i : Nat) (o : ItemOutcome),
        (drainLoop sendOk rnd 0 items)[i]? = some o → o.sendAttempted = true →
        ∃ d : ℚ, o.delayMs = some d ∧ 1000 ≤ d ∧ d < 3000) := by
  intro hall
  have h := hall (fun _ => false) (fun _ => 0)
      [{ phone := .str "111", message := .str "m1", imageBase64 := .str "AA" },
       { phone := .str "222", message := .str "m2", imageBase64 := .str "BB" }]
      0 (.sendFailedLogged "111@c.us")
      (by simp only [drainLoop, runItem]; norm_num [chatIdOf, sanitizePhone]; all_goals decide)
      (by decide)
  rcases h with ⟨d, hd, _⟩
  simp [ItemOutcome.delayMs] at hd

/-- C3 amended: after every successful send the loop pauses for
`Math.random() * 2000 + 1000` ms, a value in [1000, 3000); after a caught
send failure (and after a caught item error) the loop awaits no delay and
proceeds to the next item immediately. -/
theorem drainLoop_delay_after_success (sendOk : Nat → Bool) (rnd : Nat → ℚ)
    (hr : ∀ j, 0 ≤ rnd j ∧ rnd j < 1) (items : List SendItem)
    (i : Nat) (o : ItemOutcome)
    (ho : (drainLoop sendOk rnd 0 items)[i]? = some o) :
    (o.succeeded = true → ∃ d : ℚ, o.delayMs = some d ∧ 1000 ≤ d ∧ d < 3000)
    ∧ (o.sendAttempted = true ∧ o.succeeded = false → o.delayMs = none) := by
  have h := drainLoop_getElem sendOk rnd 0 i items
  rw [ho, Nat.zero_add] at h
  rcases hit : items[i]? with _ | it
  · rw [hit] at h
    simp at h
  · rw [hit] at h
    simp only [Option.map_some'] at h
    have hrun : runItem (sendOk i) (rnd i) it = o := (Option.some.injEq ..).mp h.symm
    rcases hri : it.phone with _ | _ | p
    · rw [← hrun]
      simp [runItem, hri, ItemOutcome.succeeded, ItemOutcome.sendAttempted]
    · rw [← hrun]
      simp [runItem, hri, ItemOutcome.succeeded, ItemOutcome.sendAttempted]
    · rcases hsi : sendOk i with _ | _
      · rw [← hrun]
        simp [runItem, hri, hsi, ItemOutcome.succeeded, ItemOutcome.sendAttempted,
          ItemOutcome.delayMs]
      · rw [← hrun]
        simp only [runItem, hri, hsi, if_true, ItemOutcome.succeeded,
          ItemOutcome.sendAttempted, ItemOutcome.delayMs]
        constructor
        · intro _
          refine ⟨rnd i * 2000 + 1000, rfl, ?_, ?_⟩
          · nlinarith [(hr i).1]
          · nlinarith [(hr i).2]
        · intro hcontra
          simp at hcontra

/-- C3 amended witness: on a concrete 1-item batch with `Math.random() = 0`
the successful send is followed by a delay of exactly 1000 ms. -/
theorem drainLoop_delay_after_success_witness :
    ∃ d : ℚ, (ItemOutcome.sent "111@c.us" 1000).delayMs = some d ∧ 1000 ≤ d ∧ d < 3000 :=
  (drainLoop_delay_after_success (fun _ => true) (fun _ => 0)
    (by intro j; constructor <;> norm_num)
    [{ phone := .str "111", message := .str "m1", imageBase64 := .str "AA" }]
    0 (.sent "111@c.us" 1000)
    (by simp only [drainLoop, runItem]; norm_num [chatIdOf, sanitizePhone]; all_goals decide)).1
    rfl

/-- C9: the whole per-item body runs inside the `try` block: every item gets
exactly one outcome and the loop length always equals the batch length (the
process never crashes mid-batch); an item whose `phone` field is missing or
not a string raises inside the body and is logged as a caught per-item error;
and any rejection of the awaited send — malformed base64 image data included
— is logged as a caught per-item send failure. -/
theorem drainLoop_body_inside_try (sendOk : Nat → Bool) (rnd : Nat → ℚ)
    (items : List SendItem) (i : Nat) :
    (drainLoop sendOk rnd 0 items).length = items.length
    ∧ (drainLoop sendOk rnd 0 items)[i]? = (items[i]?).map (runItem (sendOk i) (rnd i))
    ∧ (∀ it : SendItem, it.phone = .missing ∨ it.phone = .nonString →
        runItem (sendOk i) (rnd i) it = .itemErrorLogged)
    ∧ (∀ (q : ℚ) (it : SendItem) (p : String), it.phone = .str p →
        runItem false q it = .sendFailedLogged (chatIdOf p)) := by
  refine ⟨drainLoop_length sendOk rnd 0 items, ?_, ?_, ?_⟩
  · simpa using drainLoop_getElem sendOk rnd 0 i items
  · intro it hph
    rcases hph with hph | hph <;> simp [runItem, hph]
  · intro q it p hph
    simp [runItem, hph]

/-- C9 witness: a concrete item with a missing `phone` field yields the
caught-error outcome, and a following item in the same batch is still
processed (both outcomes present). -/
theorem drainLoop_body_inside_try_witness :
    runItem true 0 { phone := .missing, message := .str "m", imageBase64 := .str "AA" }
        = .itemErrorLogged
    ∧ (drainLoop (fun _ => true) (fun _ => 0) 0
        [{ phone := .missing, message := .str "m", imageBase64 := .str "AA" },
         { phone := .str "222", message := .str "m2", imageBase64 := .str "BB" }]).length = 2 :=
  ⟨(drainLoop_body_inside_try (fun _ => true) (fun _ => 0) [] 0).2.2.1 _ (Or.inl rfl),
   (drainLoop_body_inside_try (fun _ => true) (fun _ => 0)
      [{ phone := .missing, message := .str "m", imageBase64 := .str "AA" },
       { phone := .str "222", message := .str "m2", imageBase64 := .str "BB" }] 0).1⟩

lemma step_preserves_qr_none {s t : St} (hst : Step s t)
    (ih : s.sessionStatus = .CONNECTED ∨ s.sessionStatus = .DISCONNECTED →
      s.qrCodeData = none) :
    t.sessionStatus = .CONNECTED ∨ t.sessionStatus = .DISCONNECTED →
      t.qrCodeData = none := by
  cases hst with
  | connect =>
      cases hs : s.sessionStatus with
      | DISCONNECTED =>
          simp [connectStep, connectRoute, initializeWhatsApp, newClient, setConnecting, hs]
      | CONNECTING =>
          simp [connectStep, connectRoute, hs]
      | CONNECTED =>
          simpa [connectStep, connectRoute, hs] using ih
      | ERROR =>
          simp [connectStep, connectRoute, initializeWhatsApp, newClient, setConnecting, hs]
  | statusPoll => exact ih
  | qrEvent render hstat hc =>
      cases render with
      | error e => simp [onQr]
      | ok url => simp [onQr, hstat]
  | readyEvent hc => intro _; rfl
  | disconnectedEvent hc => intro _; exact onDisconnected_qrCodeData s
  | authFailureEvent hc => simp [onAuthFailure]
  | initFailure hc => simp [onInitFailure, destroyClient_sessionStatus]
  | disconnectCmd logoutOk => intro _; rfl
  | sendBulkCmd sendOk rnd messages =>
      rw [sendBulkRoute_state]
      exact ih

lemma reach_qr_none {s : St} (h : Reach s) :
    s.sessionStatus = .CONNECTED ∨ s.sessionStatus = .DISCONNECTED →
      s.qrCodeData = none := by
  induction h with
  | init => intro _; rfl
  | step _ hst ih => exact step_preserves_qr_none hst ih

/-- C7 counterexample: it is false that `qrCodeData` is non-null only while
`sessionStatus` is `'CONNECTING'` — the run connect, qr rendered, then
`auth_failure` reaches a state whose `sessionStatus` is `'ERROR'` while the
previously rendered token is still stored. -/
theorem qr_nonnull_outside_connecting :
    ¬ (∀ s : St, Reach s → s.qrCodeData ≠ none → s.sessionStatus = .CONNECTING) := by
  intro hall
  have h1 : Reach (connectStep initialState) :=
    Reach.step Reach.init (Step.connect initialState)
  have h2 : Reach (onQr (Except.ok "data:image/png;base64,tok") (connectStep initialState)) :=
    Reach.step h1 (Step.qrEvent (connectStep initialState)
      (Except.ok "data:image/png;base64,tok") (by decide) (by decide))
  have h3 : Reach (onAuthFailure
      (onQr (Except.ok "data:image/png;base64,tok") (connectStep initialState))) :=
    Reach.step h2 (Step.authFailureEvent _ (by decide))
  have h4 := hall _ h3 (by decide)
  exact absurd h4 (by decide)

/-- C7 amended: on every reachable state, `qrCodeData` can be non-null only
while `sessionStatus` is `'CONNECTING'` or `'ERROR'` — it is always null when
the state is `'CONNECTED'` or `'DISCONNECTED'` — and it is cleared by the
`ready` handler, by the `disconnected` handler, and by the disconnect route. -/
theorem qr_lifecycle (s : St) (h : Reach s) :
    (s.sessionStatus = .CONNECTED ∨ s.sessionStatus = .DISCONNECTED →
      s.qrCodeData = none)
    ∧ (s.qrCodeData ≠ none →
      s.sessionStatus = .CONNECTING ∨ s.sessionStatus = .ERROR)
    ∧ (onReady s).qrCodeData = none
    ∧ (onDisconnected s).qrCodeData = none
    ∧ ∀ logoutOk : Bool, (disconnectRoute logoutOk s).state.qrCodeData = none := by
  refine ⟨reach_qr_none h, ?_, rfl, onDisconnected_qrCodeData s, fun _ => rfl⟩
  intro hqr
  cases hs : s.sessionStatus with
  | DISCONNECTED => exact absurd (reach_qr_none h (Or.inr hs)) hqr
  | CONNECTING => exact Or.inl rfl
  | CONNECTED => exact absurd (reach_qr_none h (Or.inl hs)) hqr
  | ERROR => exact Or.inr rfl

/-- C7 amended witness: along the concrete run connect, qr rendered, ready,
the resulting reachable `CONNECTED` state stores no token. -/
theorem qr_lifecycle_witness :
    (onReady (onQr (Except.ok "data:image/png;base64,tok")
        (connectStep initialState))).qrCodeData = none :=
  (qr_lifecycle _ (Reach.step
      (Reach.step
        (Reach.step Reach.init (Step.connect initialState))
        (Step.qrEvent (connectStep initialState)
          (Except.ok "data:image/png;base64,tok") (by decide) (by decide)))
      (Step.readyEvent _ (by decide)))).1
    (Or.inl (by decide))

end WhatsappAutomator
